import Mathlib

/-!
Verification of the NeuroBlock training-pipeline backend.

The Python sources (backend/utils.py, backend/validation.py,
backend/ml_pipeline.py, backend/app.py) are shallowly embedded below.
Pandas dataframes become lists of named columns; a column is a list of
optional cells (missing values are `none`); machine floats become exact
rationals, with the one irrational operation (square root, used by the
standard scaler, np.std and RMSE) abstracted as an explicit function
parameter, since none of the verified properties depend on its value.
Python exceptions become `Except` values.
-/

namespace NeuroBlock

/-- Equality of `Except` values is decidable componentwise. -/
instance {ε α : Type} [DecidableEq ε] [DecidableEq α] : DecidableEq (Except ε α) := fun a b =>
  match a, b with
  | .error e, .error e2 =>
    if h : e = e2 then isTrue (by rw [h])
    else isFalse (fun hc => h (by injection hc))
  | .ok v, .ok v2 =>
    if h : v = v2 then isTrue (by rw [h])
    else isFalse (fun hc => h (by injection hc))
  | .error _, .ok _ => isFalse (fun hc => Except.noConfusion hc)
  | .ok _, .error _ => isFalse (fun hc => Except.noConfusion hc)

/-! ## Data model: columns and dataframes -/

/-- A pandas column: either a numeric dtype column or an object (string)
dtype column; `none` is a missing value (NaN). -/
inductive Column where
  | num (vals : List (Option ℚ))
  | str (vals : List (Option String))
deriving DecidableEq, Repr

/-- A pandas dataframe: an ordered list of named columns. -/
structure DataFrame where
  cols : List (String × Column)
deriving DecidableEq, Repr

/-- Number of cells in the column. -/
def Column.size : Column → ℕ
  | .num vs => vs.length
  | .str vs => vs.length

/-- `pd.api.types.is_numeric_dtype`. -/
def Column.isNumericDtype : Column → Bool
  | .num _ => true
  | .str _ => false

/-- Whether the column dtype is `object` (strings). -/
def Column.isObjectDtype : Column → Bool
  | .num _ => false
  | .str _ => true

/-- `series.isna().any()`: at least one missing cell. -/
def Column.hasMissing : Column → Bool
  | .num vs => vs.any (·.isNone)
  | .str vs => vs.any (·.isNone)

/-- `series.isna().all()`: every cell is missing. -/
def Column.allMissing : Column → Bool
  | .num vs => vs.all (·.isNone)
  | .str vs => vs.all (·.isNone)

/-- `series.isna().sum()`: number of missing cells. -/
def Column.missingCount : Column → ℕ
  | .num vs => (vs.filter (·.isNone)).length
  | .str vs => (vs.filter (·.isNone)).length

/-- `series.nunique()`: distinct non-missing values (pandas excludes NaN). -/
def Column.nunique : Column → ℕ
  | .num vs => (vs.filterMap id).dedup.length
  | .str vs => (vs.filterMap id).dedup.length

/-- The dataframe's column labels, `df.columns`. -/
def DataFrame.colNames (df : DataFrame) : List String :=
  df.cols.map (·.1)

/-- `len(df)`: number of rows (the length of the index; every column of a
dataframe has this length). -/
def DataFrame.nrows (df : DataFrame) : ℕ :=
  match df.cols with
  | [] => 0
  | (_, c) :: _ => c.size

/-- `df.empty`: true when an axis has length zero. -/
def DataFrame.emptyDf (df : DataFrame) : Bool :=
  df.cols.isEmpty || decide (df.nrows = 0)

/-- `df[name]` for a single label: the first column with that label. -/
def DataFrame.getCol (df : DataFrame) (name : String) : Option Column :=
  (df.cols.find? (fun nc => nc.1 == name)).map (·.2)

/-- `df[name].nunique()` as a total map (0 when the label is absent; the
callers below only use it after checking the label exists). -/
def DataFrame.colNunique (df : DataFrame) (name : String) : ℕ :=
  match df.getCol name with
  | some c => c.nunique
  | none => 0

/-- Percentage of missing cells of a column, `df[col].isna().sum() / len(df) * 100`. -/
def Column.missingPct (c : Column) : ℚ :=
  (c.missingCount : ℚ) / (c.size : ℚ) * 100

/-- `(df.isna().sum() / len(df) * 100).max()`: the worst per-column missing
percentage. -/
def DataFrame.maxMissingPct (df : DataFrame) : ℚ :=
  df.cols.foldl (fun m nc => if m ≤ nc.2.missingPct then nc.2.missingPct else m) 0

/-! ## utils.validate_dataset — the validator `app.py` imports and calls on
upload (backend/utils.py lines 55–71). -/

/-- `utils.validate_dataset(df) -> (is_valid, error_message)`. -/
def validateDataset (df : DataFrame) : Bool × String :=
  if df.emptyDf then (false, "Dataset is empty")
  else if df.nrows < 10 then (false, "Dataset must have at least 10 rows")
  else if df.cols.length < 2 then
    (false, "Dataset must have at least 2 columns (features + target)")
  else (true, "")

/-! ## validation.validate_dataset — the standalone validation module
(backend/validation.py lines 9–48); `app.py` does not import it. -/

/-- `validation.validate_dataset(df) -> (is_valid, error_message, suggestion)`.
The interpolated parts of the source's f-string messages are elided; no
verified property depends on the message text. -/
def validationValidateDataset (df : DataFrame) : Bool × Option String × Option String :=
  if df.emptyDf then
    (false, some "Dataset is empty", some "Please upload a file with data rows")
  else if df.nrows < 10 then
    (false, some "Dataset has too few rows",
      some "ML models need at least 10 samples. Please upload a larger dataset")
  else if df.cols.all (fun nc => nc.2.allMissing) then
    (false, some "All columns contain only missing values",
      some "Please check your data file for valid entries")
  else if 90 < df.maxMissingPct then
    (false, some "A column has more than 90 percent missing values",
      some "Consider removing columns with too many missing values or use imputation")
  else if df.cols.length < 2 then
    (false, some "Dataset must have at least 2 columns",
      some "You need at least one input feature and one target variable")
  else if !df.colNames.Nodup then
    (false, some "Duplicate column names found",
      some "Please rename duplicate columns in your CSV file")
  else if df.colNames.any (fun n => 1 < (n.splitOn "Unnamed").length) then
    (false, some "Found unnamed columns",
      some "Please add column headers to your CSV file")
  else (true, none, none)

/-! ## utils.validate_feature_target_selection — the selection validator
`app.py` calls before training (backend/utils.py lines 74–103). -/

/-- `utils.validate_feature_target_selection(df, input_features, target_variable)
-> (is_valid, error_message)`. -/
def validateFeatureTargetSelection (df : DataFrame) (inputFeatures : List String)
    (targetVariable : String) : Bool × String :=
  if !df.colNames.contains targetVariable then
    (false, "Target variable not found in dataset")
  else
    match inputFeatures.find? (fun f => !df.colNames.contains f) with
    | some _ => (false, "Feature not found in dataset")
    | none =>
      if inputFeatures.contains targetVariable then
        (false, "Target variable cannot be in input features")
      else if inputFeatures.length < 1 then
        (false, "At least one input feature must be selected")
      else (true, "")

/-! ## validation.validate_feature_selection — the standalone selection
validator (backend/validation.py lines 51–95); `app.py` does not import it. -/

/-- `validation.validate_feature_selection(df, input_features, target_variable)
-> (is_valid, error_message, suggestion)`. -/
def validationValidateFeatureSelection (df : DataFrame) (inputFeatures : List String)
    (targetVariable : String) : Bool × Option String × Option String :=
  if !(inputFeatures.filter (fun f => !df.colNames.contains f)).isEmpty then
    (false, some "Features not found",
      some "Please select valid column names from your dataset")
  else if !df.colNames.contains targetVariable then
    (false, some "Target variable not found", some "Please select a valid target column")
  else if inputFeatures.contains targetVariable then
    (false, some "Target variable cannot be an input feature",
      some "Remove the target variable from your feature selection")
  else if inputFeatures.length = 0 then
    (false, some "No input features selected", some "Please select at least one feature column")
  else if df.colNunique targetVariable = 1 then
    (false, some "Target variable has only one unique value",
      some "Target must have at least 2 different values for classification or range of values for regression")
  else if ((df.getCol targetVariable).elim false Column.isObjectDtype
        || decide (df.colNunique targetVariable < 20))
      && decide (100 < df.colNunique targetVariable) then
    (false, some "Target has too many unique classes",
      some "Too many classes for classification. Consider grouping categories or using regression")
  else if !(inputFeatures.filter (fun f =>
        (df.getCol f).elim false (fun c => c.isNumericDtype && decide (c.nunique = 1)))).isEmpty then
    (false, some "Features with no variance",
      some "Remove constant features as they do not provide information")
  else (true, none, none)

/-! ## MLPipeline state and preprocessing (backend/ml_pipeline.py lines 26–113) -/

/-- The imputation strategy, `config.get('missing_strategy', 'mean')`. -/
inductive Strategy where
  | mean
  | median
  | mostFrequent
deriving DecidableEq, Repr

/-- The preprocessing configuration dictionary read by `preprocess_data`;
each flag defaults to the value `config.get(key, default)` supplies. -/
structure Config where
  handleMissing : Bool := false
  missingStrategy : Strategy := .mean
  encodeCategories : Bool := false
  standardization : Bool := false
  normalization : Bool := false
deriving DecidableEq, Repr

/-- Which scaler `self.scaler` holds after preprocessing. -/
inductive ScalerTag where
  | noScaler
  | standard
  | minmax
deriving DecidableEq, Repr

/-- A model constructed by the `train_model` dispatch chain
(backend/ml_pipeline.py lines 156–228), with the hyperparameters the source
reads and the fixed seed it passes. -/
inductive ModelSpec where
  | logisticRegression (maxIter : ℕ) (randomState : ℕ)
  | linearRegression
  | decisionTreeClassifier (maxDepth : Option ℕ) (minSamplesSplit : ℕ) (randomState : ℕ)
  | decisionTreeRegressor (maxDepth : Option ℕ) (minSamplesSplit : ℕ) (randomState : ℕ)
  | randomForestClassifier (nEstimators : ℕ) (maxDepth : Option ℕ) (randomState : ℕ)
  | randomForestRegressor (nEstimators : ℕ) (maxDepth : Option ℕ) (randomState : ℕ)
  | svc (c : ℚ) (kernel : String) (randomState : ℕ)
  | svr (c : ℚ) (kernel : String)
  | knnClassifier (nNeighbors : ℕ)
  | knnRegressor (nNeighbors : ℕ)
  | mlpClassifier (hiddenLayerSizes : List ℕ) (maxIter : ℕ) (randomState : ℕ)
  | mlpRegressor (hiddenLayerSizes : List ℕ) (maxIter : ℕ) (randomState : ℕ)
deriving DecidableEq, Repr

/-- The mutable fields of an `MLPipeline` object that the verified claims
touch, plus `original_df`, the dataframe `app.py` stores on the pipeline at
upload time and reads back at training time. -/
structure PState where
  originalDf : DataFrame
  featureNames : List String := []
  targetName : Option String := none
  labelEncoders : List (String × List String) := []
  scalerTag : ScalerTag := .noScaler
  model : Option ModelSpec := none
  yTrainVals : List ℚ := []
  yTrainFloatDtype : Bool := false
deriving DecidableEq, Repr

/-- Errors out of preprocessing: a missing column label (pandas `KeyError`),
an all-missing column handed to `SimpleImputer` (which drops it, making the
writeback fail), or non-numeric/NaN input reaching a scaler. -/
inductive PreprocessError where
  | unknownColumn
  | allMissingColumn
  | nonNumericScale
  | missingInScale
deriving DecidableEq, Repr

/-- Mean of a list of rationals. -/
def meanQ (l : List ℚ) : ℚ := l.sum / l.length

/-- Median as numpy computes it: middle element of the sorted list, or the
average of the two middle elements. -/
def medianQ (l : List ℚ) : ℚ :=
  let s := l.insertionSort (· ≤ ·)
  if s.length % 2 = 1 then s.getD (s.length / 2) 0
  else (s.getD (s.length / 2 - 1) 0 + s.getD (s.length / 2) 0) / 2

/-- Most frequent element; ties resolved to the smallest, as
`SimpleImputer(strategy='most_frequent')` does. Returns 0 on an empty list
(callers guard against that case). -/
def mostFrequentQ (l : List ℚ) : ℚ :=
  match l.dedup.insertionSort (· ≤ ·) with
  | [] => 0
  | c :: cs => cs.foldl (fun best x => if l.count best < l.count x then x else best) c

/-- Lexicographic comparison of character lists by code point (the order
Python string comparison and `np.unique` use). -/
def charListLe : List Char → List Char → Bool
  | [], _ => true
  | _ :: _, [] => false
  | a :: as, b :: bs => if a = b then charListLe as bs else decide (a < b)

/-- Lexicographic string comparison by code point. -/
def strLe (a b : String) : Bool := charListLe a.toList b.toList

/-- Most frequent string, ties resolved to the lexicographically smallest. -/
def mostFrequentStr (l : List String) : String :=
  match l.dedup.insertionSort (fun a b => strLe a b) with
  | [] => ""
  | c :: cs => cs.foldl (fun best x => if l.count best < l.count x then x else best) c

/-- Population variance (numpy default `ddof=0`); `np.std` is its square
root. -/
def popVarQ (l : List ℚ) : ℚ := meanQ (l.map (fun x => (x - meanQ l) ^ 2))

/-- The imputation value `SimpleImputer(strategy=...)` fits on the observed
values of a numeric column. -/
def imputeValueQ (strat : Strategy) (obs : List ℚ) : ℚ :=
  match strat with
  | .mean => meanQ obs
  | .median => medianQ obs
  | .mostFrequent => mostFrequentQ obs

/-- `imputer.fit_transform(X[[col]]).ravel()` written back over the column:
every missing cell becomes the fitted statistic. A column with no observed
value is dropped by `SimpleImputer`, so the writeback raises; that is the
`allMissingColumn` error. Numeric columns use the configured strategy,
object columns always use most-frequent (source lines 71–79). -/
def Column.imputeCol (strat : Strategy) : Column → Except PreprocessError Column
  | .num vs =>
    let obs := vs.filterMap id
    if obs.isEmpty then .error .allMissingColumn
    else .ok (.num (vs.map (fun o => some (o.getD (imputeValueQ strat obs)))))
  | .str vs =>
    let obs := vs.filterMap id
    if obs.isEmpty then .error .allMissingColumn
    else .ok (.str (vs.map (fun o => some (o.getD (mostFrequentStr obs)))))

/-- The per-column body of the missing-value loop: impute only when
`X[col].isna().any()`. -/
def handleMissingCol (strat : Strategy) (c : Column) : Except PreprocessError Column :=
  if c.hasMissing then c.imputeCol strat else .ok c

/-- Effectful map over named columns, stopping at the first error. -/
def mapColsE (f : Column → Except PreprocessError Column) :
    List (String × Column) → Except PreprocessError (List (String × Column))
  | [] => .ok []
  | nc :: l =>
    match f nc.2 with
    | .error e => .error e
    | .ok c =>
      match mapColsE f l with
      | .error e => .error e
      | .ok l' => .ok ((nc.1, c) :: l')

/-- The missing-value step of `preprocess_data` (source lines 68–79). -/
def handleMissingStep (config : Config) (cols : List (String × Column)) :
    Except PreprocessError (List (String × Column)) :=
  if config.handleMissing then mapColsE (handleMissingCol config.missingStrategy) cols
  else .ok cols

/-- `X[col].astype(str)` on one cell: a missing cell renders as the string
"nan". -/
def cellAsStr (o : Option String) : String := o.getD "nan"

/-- `LabelEncoder().fit_transform(values.astype(str))`: classes are the
sorted distinct strings, each value maps to its class index. Returns
(classes, codes). -/
def labelEncode (vs : List (Option String)) : List String × List (Option ℚ) :=
  let mapped := vs.map cellAsStr
  let classes := mapped.dedup.insertionSort (fun a b => strLe a b)
  (classes, mapped.map (fun s => some ((classes.indexOf s : ℕ) : ℚ)))

/-- The categorical-encoding step (source lines 82–87): when the flag is set,
every non-numeric feature column is label encoded and its encoder recorded.
Returns (columns, fitted encoders). -/
def encodeStep (config : Config) (cols : List (String × Column)) :
    List (String × Column) × List (String × List String) :=
  if config.encodeCategories then
    (cols.map (fun nc =>
      match nc.2 with
      | .str vs => (nc.1, Column.num (labelEncode vs).2)
      | c => (nc.1, c)),
     cols.filterMap (fun nc =>
      match nc.2 with
      | .str vs => some (nc.1, (labelEncode vs).1)
      | _ => none))
  else (cols, [])

/-- Target encoding (source lines 89–93): a non-numeric target is always
label encoded, independent of any flag. Returns (target, fitted encoder). -/
def encodeTarget (targetVariable : String) (c : Column) :
    Column × List (String × List String) :=
  match c with
  | .str vs => (Column.num (labelEncode vs).2, [(targetVariable, (labelEncode vs).1)])
  | c => (c, [])

/-- `StandardScaler` on one column: subtract the mean, divide by the standard
deviation (`sqrtFn` of the population variance; zero scales are replaced by 1
as `_handle_zeros_in_scale` does). The scaler raises on string or NaN
input. -/
def standardizeCol (sqrtFn : ℚ → ℚ) : Column → Except PreprocessError Column
  | .str _ => .error .nonNumericScale
  | .num vs =>
    if vs.any (·.isNone) then .error .missingInScale
    else
      let obs := vs.filterMap id
      let mu := meanQ obs
      let sigma := sqrtFn (popVarQ obs)
      let s := if sigma = 0 then 1 else sigma
      .ok (.num (vs.map (fun o => o.map (fun x => (x - mu) / s))))

/-- Smallest element of a list of rationals (0 for an empty list). -/
def minQ (l : List ℚ) : ℚ :=
  match l with
  | [] => 0
  | h :: t => t.foldl min h

/-- Largest element of a list of rationals (0 for an empty list). -/
def maxQ (l : List ℚ) : ℚ :=
  match l with
  | [] => 0
  | h :: t => t.foldl max h

/-- `MinMaxScaler` on one column: rescale to [0,1] by observed min and range
(zero ranges replaced by 1). -/
def minmaxCol : Column → Except PreprocessError Column
  | .str _ => .error .nonNumericScale
  | .num vs =>
    if vs.any (·.isNone) then .error .missingInScale
    else
      let obs := vs.filterMap id
      let mn := minQ obs
      let r := maxQ obs - mn
      let s := if r = 0 then 1 else r
      .ok (.num (vs.map (fun o => o.map (fun x => (x - mn) / s))))

/-- The scaling step (source lines 96–111): standardization takes precedence
over normalization; with neither flag, `self.scaler` keeps its old value. -/
def scaleStep (sqrtFn : ℚ → ℚ) (config : Config) (oldTag : ScalerTag)
    (cols : List (String × Column)) :
    Except PreprocessError (List (String × Column) × ScalerTag) :=
  if config.standardization then
    (mapColsE (standardizeCol sqrtFn) cols).map (fun cs => (cs, .standard))
  else if config.normalization then
    (mapColsE minmaxCol cols).map (fun cs => (cs, .minmax))
  else .ok (cols, oldTag)

/-- `df[input_features]`: every feature column, first error on a missing
label. -/
def getCols (df : DataFrame) (names : List String) :
    Option (List (String × Column)) :=
  names.mapM (fun n => (df.getCol n).map (fun c => (n, c)))

/-- `MLPipeline.preprocess_data(df, input_features, target_variable, config)`
(source lines 40–113), as a state transformer over the pipeline object. The
source copies `df` before any mutation (line 59), so the embedding takes the
dataframe by value and the state's `originalDf` is untouched. -/
def preprocessData (sqrtFn : ℚ → ℚ) (df : DataFrame) (inputFeatures : List String)
    (targetVariable : String) (config : Config) (st : PState) :
    Except PreprocessError (PState × List (String × Column) × Column) :=
  match getCols df inputFeatures with
  | none => .error .unknownColumn
  | some xcols =>
    match df.getCol targetVariable with
    | none => .error .unknownColumn
    | some ycol =>
      match handleMissingStep config xcols with
      | .error e => .error e
      | .ok xcols1 =>
        match scaleStep sqrtFn config st.scalerTag (encodeStep config xcols1).1 with
        | .error e => .error e
        | .ok r =>
          .ok ({ st with
                  featureNames := inputFeatures,
                  targetName := some targetVariable,
                  labelEncoders := st.labelEncoders ++ (encodeStep config xcols1).2
                    ++ (encodeTarget targetVariable ycol).2,
                  scalerTag := r.2 },
               r.1, (encodeTarget targetVariable ycol).1)

/-! ## MLPipeline.split_data (backend/ml_pipeline.py lines 115–132) -/

/-- Errors out of the split. The codebase defines no dedicated
invalid-fraction error; `invalidFraction` names the error the specification
promises, `valueError` the generic `ValueError` the underlying library
actually raises (on a fraction outside (0,1), an empty reduction, an empty
resulting side, or an infeasible stratification). -/
inductive SplitError where
  | invalidFraction
  | valueError
deriving DecidableEq, Repr

/-- The result of `train_test_split`, plus a flag recording whether the
stratified branch ran. -/
structure SplitResult where
  xTrain : List (List ℚ)
  xTest : List (List ℚ)
  yTrain : List ℤ
  yTest : List ℤ
  stratified : Bool
deriving DecidableEq, Repr

/-- `len(np.unique(y))`: number of distinct target values. -/
def nuniqueInt (y : List ℤ) : ℕ := y.dedup.length

/-- `class_counts.min()`: the smallest per-class count (0 only for an empty
target, where numpy raises instead). -/
def minClassCount (y : List ℤ) : ℕ :=
  match y.dedup with
  | [] => 0
  | c :: cs => cs.foldl (fun m x => min m (y.count x)) (y.count c)

/-- Line 128: `stratify_param = y if (len(unique_classes) > 1 and
min_class_count >= 2) else None`. -/
def stratifyParam (y : List ℤ) : Option (List ℤ) :=
  if 1 < nuniqueInt y ∧ 2 ≤ minClassCount y then some y else none

/-- `ceil(n * test_size)`, the test-side size `train_test_split` computes. -/
def nTestOf (n : ℕ) (testSize : ℚ) : ℕ := (⌈(n : ℚ) * testSize⌉).toNat

/-- `sklearn.model_selection.train_test_split(X, y, test_size, random_state,
stratify)`: raises `ValueError` when the fraction is outside (0,1), when a
side would be empty, or when a requested stratification is infeasible
(a class with fewer than 2 members, or fewer rows on a side than classes);
otherwise partitions the rows. The seeded shuffle is a fixed deterministic
permutation; no verified property depends on which rows land on which
side. -/
def trainTestSplit (x : List (List ℚ)) (y : List ℤ) (testSize : ℚ)
    (strat : Option (List ℤ)) : Except SplitError SplitResult :=
  if ¬(0 < testSize ∧ testSize < 1) then .error .valueError
  else if nTestOf y.length testSize = 0 ∨ y.length - nTestOf y.length testSize = 0 then
    .error .valueError
  else
    match strat with
    | some ys =>
      if minClassCount ys < 2 ∨ nTestOf y.length testSize < nuniqueInt ys
          ∨ y.length - nTestOf y.length testSize < nuniqueInt ys then
        .error .valueError
      else
        .ok ⟨x.drop (nTestOf y.length testSize), x.take (nTestOf y.length testSize),
             y.drop (nTestOf y.length testSize), y.take (nTestOf y.length testSize), true⟩
    | none =>
      .ok ⟨x.drop (nTestOf y.length testSize), x.take (nTestOf y.length testSize),
           y.drop (nTestOf y.length testSize), y.take (nTestOf y.length testSize), false⟩

/-- `MLPipeline.split_data(X, y, test_size, random_state)` (source lines
115–132): compute the class counts (`class_counts.min()` raises numpy's
`ValueError` on an empty target), decide stratification, delegate to
`train_test_split`. No fraction validation of its own. -/
def splitData (x : List (List ℚ)) (y : List ℤ) (testSize : ℚ) :
    Except SplitError SplitResult :=
  if y.isEmpty then .error .valueError
  else trainTestSplit x y testSize (stratifyParam y)

/-! ## MLPipeline.train_model dispatch (backend/ml_pipeline.py lines 134–252) -/

/-- The hyperparameters dictionary; `none` means the key is absent and the
source's `.get(key, default)` supplies the default. -/
structure Hyperparameters where
  maxIter : Option ℕ := none
  maxDepth : Option ℕ := none
  minSamplesSplit : Option ℕ := none
  nEstimators : Option ℕ := none
  cParam : Option ℚ := none
  kernel : Option String := none
  nNeighbors : Option ℕ := none
  hiddenLayerSizes : Option (List ℕ) := none
deriving DecidableEq, Repr

/-- Line 153: classification iff the training target has fewer than 50
distinct values and a non-floating dtype. -/
def isClassificationOf (st : PState) : Bool :=
  decide (st.yTrainVals.dedup.length < 50) && !st.yTrainFloatDtype

/-- The `if/elif` dispatch chain of `train_model` (source lines 156–230):
construct the model for the given type string, or nothing when the chain
falls through to `raise ValueError(f"Unknown model type: ...")`. -/
def buildModel (modelType : String) (isCls : Bool) (hp : Hyperparameters) :
    Option ModelSpec :=
  if modelType = "logistic" ∨ modelType = "linear" then
    some (if isCls then .logisticRegression (hp.maxIter.getD 1000) 42
          else .linearRegression)
  else if modelType = "decision_tree" then
    some (if isCls then .decisionTreeClassifier hp.maxDepth (hp.minSamplesSplit.getD 2) 42
          else .decisionTreeRegressor hp.maxDepth (hp.minSamplesSplit.getD 2) 42)
  else if modelType = "random_forest" then
    some (if isCls then .randomForestClassifier (hp.nEstimators.getD 100) hp.maxDepth 42
          else .randomForestRegressor (hp.nEstimators.getD 100) hp.maxDepth 42)
  else if modelType = "svm" then
    some (if isCls then .svc (hp.cParam.getD 1) (hp.kernel.getD "rbf") 42
          else .svr (hp.cParam.getD 1) (hp.kernel.getD "rbf"))
  else if modelType = "knn" then
    some (if isCls then .knnClassifier (hp.nNeighbors.getD 5)
          else .knnRegressor (hp.nNeighbors.getD 5))
  else if modelType = "neural_network" then
    some (if isCls then .mlpClassifier (hp.hiddenLayerSizes.getD [100]) (hp.maxIter.getD 500) 42
          else .mlpRegressor (hp.hiddenLayerSizes.getD [100]) (hp.maxIter.getD 500) 42)
  else none

/-- The unknown-type failure of `train_model`:
`raise ValueError(f"Unknown model type: ...")` (line 230), which spec and
claims call `UnknownModelTypeError`. -/
inductive TrainError where
  | unknownModelType (modelType : String)
deriving DecidableEq, Repr

/-- The dispatch-and-store prefix of `MLPipeline.train_model` (lines
149–233): resolve the type string; on an unrecognized string raise before
any assignment to `self.model` and before any fit, leaving the object
unchanged; otherwise store the constructed model (fitting and the metrics
that follow are downstream of this step and cannot run when it raises). -/
def trainModel (st : PState) (modelType : String) (hp : Hyperparameters) :
    PState × Except TrainError ModelSpec :=
  match buildModel modelType (isClassificationOf st) hp with
  | none => (st, .error (.unknownModelType modelType))
  | some spec => ({ st with model := some spec }, .ok spec)

/-! ## MLPipeline._calculate_metrics (backend/ml_pipeline.py lines 254–343) -/

/-- The label set of `sklearn.metrics.confusion_matrix(y_true, y_pred)`:
the sorted distinct values of the union of true and predicted labels
(`np.unique` sorts ascending). -/
def cmLabels (yTrue yPred : List ℤ) : List ℤ :=
  ((yTrue ++ yPred).dedup).insertionSort (· ≤ ·)

/-- Number of positions where the true label is `a` and the predicted label
is `b`. -/
def pairCount (yTrue yPred : List ℤ) (a b : ℤ) : ℕ :=
  (yTrue.zip yPred).countP (fun p => decide (p.1 = a ∧ p.2 = b))

/-- `sklearn.metrics.confusion_matrix(y_true, y_pred)`: entry (i, j) counts
the rows whose true label is the i-th and predicted label the j-th element
of the sorted label union. -/
def confusionMatrix (yTrue yPred : List ℤ) : List (List ℕ) :=
  (cmLabels yTrue yPred).map (fun a =>
    (cmLabels yTrue yPred).map (fun b => pairCount yTrue yPred a b))

/-- `mean_squared_error`. -/
def mseQ (y yPred : List ℚ) : ℚ := meanQ ((y.zip yPred).map (fun p => (p.1 - p.2) ^ 2))

/-- `mean_absolute_error`. -/
def maeQ (y yPred : List ℚ) : ℚ := meanQ ((y.zip yPred).map (fun p => |p.1 - p.2|))

/-- `r2_score`: 1 − ss_res/ss_tot, with sklearn's convention for a constant
true vector (1 when the residuals also vanish, else 0). -/
def r2Q (y yPred : List ℚ) : ℚ :=
  let ssRes := ((y.zip yPred).map (fun p => (p.1 - p.2) ^ 2)).sum
  let ssTot := (y.map (fun v => (v - meanQ y) ^ 2)).sum
  if ssTot = 0 then (if ssRes = 0 then 1 else 0) else 1 - ssRes / ssTot

/-- The record `_calculate_metrics` builds in the regression branch (source
lines 291–319). -/
structure RegressionMetricsResult where
  accuracy : ℚ
  precision : ℚ
  recallVal : ℚ
  f1 : ℚ
  trainAccuracy : ℚ
  confusionMat : List (List ℕ)
  mse : ℚ
  rmse : ℚ
  mae : ℚ
  r2 : ℚ
deriving DecidableEq, Repr

/-- The regression branch of `MLPipeline._calculate_metrics` (source lines
291–319): error statistics on the test split, R²-based presentation aliases
for the four classification-named scores, and a fixed 2×2 zero confusion
matrix. `sqrtFn` abstracts the floating square root used for the RMSE and
for `np.std`. -/
def calculateMetricsRegression (sqrtFn : ℚ → ℚ)
    (yTest yTestPred yTrain yTrainPred : List ℚ) : RegressionMetricsResult :=
  let testMse := mseQ yTest yTestPred
  let testMae := maeQ yTest yTestPred
  let testR2 := r2Q yTest yTestPred
  let trainR2 := r2Q yTrain yTrainPred
  { accuracy := max 0 testR2
    precision := testR2
    recallVal := 1 - testMae / (sqrtFn (popVarQ yTest) + 1 / 10000000000)
    f1 := testR2
    trainAccuracy := max 0 trainR2
    confusionMat := [[0, 0], [0, 0]]
    mse := testMse
    rmse := sqrtFn testMse
    mae := testMae
    r2 := testR2 }

/-! ## Example data -/

/-- A 10-row dataframe with two columns that carry the same label "a". -/
def dfDupCols : DataFrame :=
  ⟨[("a", .num (List.replicate 10 (some 1))),
    ("a", .num (List.replicate 10 (some 2)))]⟩

/-- A 10-row dataframe whose target column "t" is constant. -/
def dfConstTarget : DataFrame :=
  ⟨[("x", .num ((List.range 10).map (fun i => some (i : ℚ)))),
    ("t", .num (List.replicate 10 (some 5)))]⟩

/-- A 3-row dataframe whose target column "t" is non-numeric. -/
def dfStrTarget : DataFrame :=
  ⟨[("x", .num [some 1, some 2, some 3]),
    ("t", .str [some "b", some "a", some "b"])]⟩

/-- A concrete pipeline state: the uploaded dataframe plus a 4-sample binary
training target. -/
def examplePState : PState :=
  { originalDf := dfConstTarget, yTrainVals := [0, 1, 0, 1], yTrainFloatDtype := false }

/-- The pipeline state after the concrete preprocessing run used in the
witnesses below. -/
def exampleFittedState : PState :=
  { examplePState with
    featureNames := ["x"],
    targetName := some "t",
    labelEncoders := [("t", ["a", "b"])] }

/-! ## C1 — the dataset validator invoked by the training service -/

/-- C1 (amended): the dataset validator that `app.py` imports and invokes is
`utils.validate_dataset`, and it accepts a dataframe exactly when it has at
least 10 rows and at least 2 columns; in particular it accepts a well-formed
10-row 2-column dataset, but performs none of the missing-percentage,
duplicate-name or unnamed-header checks (those exist only in
`validation.validate_dataset`, which the service does not import). -/
theorem C1_invoked_validator_characterization (df : DataFrame) :
    ((validateDataset df).1 = true ↔ 10 ≤ df.nrows ∧ 2 ≤ df.cols.length) ∧
    (df.emptyDf = false → ¬ df.nrows < 10 → (df.cols.all (fun nc => nc.2.allMissing)) = false →
      ¬ 90 < df.maxMissingPct → ¬ df.cols.length < 2 → ¬ df.colNames.Nodup →
      (validationValidateDataset df).1 = false) := by
  constructor
  · unfold validateDataset
    split_ifs with h1 h2 h3
    · have hz : df.nrows = 0 := by
        rcases (Bool.or_eq_true _ _).mp h1 with h | h
        · rcases df with ⟨cols⟩
          cases cols <;> simp_all [DataFrame.nrows, List.isEmpty]
        · exact of_decide_eq_true h
      simp [hz]
    · simp only [show ((false, "Dataset must have at least 10 rows").1 = true) ↔ False by simp,
        false_iff]
      omega
    · simp only [show ((false,
          "Dataset must have at least 2 columns (features + target)").1 = true) ↔ False by simp,
        false_iff]
      omega
    · simp only [show (((true : Bool), "").1 = true) ↔ True by simp, true_iff]
      omega
  · intro h1 h2 h3 h4 h5 h6
    unfold validationValidateDataset
    rw [if_neg (by simp [h1]), if_neg h2, if_neg (by simp [h3]), if_neg h4, if_neg h5,
      if_pos (by simpa using h6)]

/-- C1 (counterexample to the claim as stated): a 10-row dataset with two
identically named columns is accepted by the dataset validator the training
service invokes, although the claim says duplicate column names are
rejected. -/
theorem C1_counterexample :
    (validateDataset dfDupCols).1 = true ∧ ¬ dfDupCols.colNames.Nodup := by
  constructor
  · decide
  · decide

/-! ## C2 — feature/target selection validation at the training entry point -/

/-- C2 (amended): the selection validator the training entry point invokes is
`utils.validate_feature_target_selection`; it accepts exactly when target and
features exist, do not overlap, and at least one feature is chosen — it never
examines the target's number of unique values and returns no suggestion
string. The constant-target rejection with its non-empty suggestion exists
only in `validation.validate_feature_selection`, which the entry point does
not call: that validator, on a selection passing the existence/overlap checks
whose target has exactly one unique value, does fail with a non-empty
suggestion. -/
theorem C2_invoked_selection_characterization (df : DataFrame)
    (inputFeatures : List String) (targetVariable : String) :
    ((validateFeatureTargetSelection df inputFeatures targetVariable).1 = true ↔
      targetVariable ∈ df.colNames ∧ (∀ f ∈ inputFeatures, f ∈ df.colNames) ∧
        targetVariable ∉ inputFeatures ∧ inputFeatures ≠ []) ∧
    ((∀ f ∈ inputFeatures, f ∈ df.colNames) → targetVariable ∈ df.colNames →
      targetVariable ∉ inputFeatures → inputFeatures ≠ [] →
      df.colNunique targetVariable = 1 →
      (validationValidateFeatureSelection df inputFeatures targetVariable).1 = false ∧
        ∃ s, (validationValidateFeatureSelection df inputFeatures targetVariable).2.2 = some s ∧
          s ≠ "") := by
  constructor
  · unfold validateFeatureTargetSelection
    by_cases h1 : targetVariable ∈ df.colNames
    · rw [if_neg (by simp [h1])]
      split
      · rename_i f hfind
        refine iff_of_false (by simp) ?_
        rintro ⟨-, hall, -, -⟩
        have hmem := List.mem_of_find?_eq_some hfind
        have hp := List.find?_some hfind
        simp at hp
        exact hp (hall f hmem)
      · rename_i hfind
        have hall : ∀ f ∈ inputFeatures, f ∈ df.colNames := by
          intro f hf
          have := List.find?_eq_none.mp hfind f hf
          simpa using this
        by_cases h2 : targetVariable ∈ inputFeatures
        · rw [if_pos (by simpa using h2)]
          exact iff_of_false (by simp) (fun hc => hc.2.2.1 h2)
        · rw [if_neg (by simpa using h2)]
          by_cases h3 : inputFeatures.length < 1
          · rw [if_pos h3]
            refine iff_of_false (by simp) ?_
            rintro ⟨-, -, -, hne⟩
            rcases inputFeatures with _ | ⟨a, l⟩
            · exact hne rfl
            · simp at h3
          · rw [if_neg h3]
            refine iff_of_true (by simp) ⟨h1, hall, h2, ?_⟩
            intro he
            subst he
            simp at h3
    · rw [if_pos (by simp [h1])]
      exact iff_of_false (by simp) (fun hc => h1 hc.1)
  · intro hfeat htgt hover hne huniq
    unfold validationValidateFeatureSelection
    have hfil : inputFeatures.filter (fun f => !df.colNames.contains f) = [] := by
      apply List.filter_eq_nil_iff.mpr
      intro f hf
      simp [hfeat f hf]
    rw [hfil]
    rw [if_neg (by simp)]
    rw [if_neg (by simp [htgt])]
    rw [if_neg (by simp [hover])]
    have hlen : ¬ inputFeatures.length = 0 := by
      intro h
      exact hne (List.eq_nil_of_length_eq_zero h)
    rw [if_neg hlen, if_pos huniq]
    exact ⟨rfl, _, rfl, by decide⟩

/-- C2 (witness): on a concrete 10-row dataset whose target "t" is the
constant 5, the standalone validator rejects with a non-empty suggestion. -/
theorem C2_witness :
    (validationValidateFeatureSelection dfConstTarget ["x"] "t").1 = false ∧
      ∃ s, (validationValidateFeatureSelection dfConstTarget ["x"] "t").2.2 = some s ∧ s ≠ "" :=
  (C2_invoked_selection_characterization dfConstTarget ["x"] "t").2
    (by decide) (by decide) (by decide) (by decide) (by decide)

/-- C2 (counterexample to the claim as stated): the selection validation the
training entry point actually invokes accepts a constant-target selection
outright — it fails nothing and carries no suggestion string — so training
proceeds past feature/target validation. -/
theorem C2_counterexample :
    validateFeatureTargetSelection dfConstTarget ["x"] "t" = (true, "") ∧
      dfConstTarget.colNunique "t" = 1 := by decide

/-! ## C3 — fraction validation in the split -/

/-- C3 (amended): `split_data` performs no fraction validation of its own and
the codebase defines no dedicated invalid-fraction error; for any
`test_size` outside (0,1) the call fails with the underlying library's
generic `ValueError` (reported by the service as a generic training
failure), never with a dedicated `InvalidFractionError`. -/
theorem C3_out_of_range_fraction_generic_error (x : List (List ℚ)) (y : List ℤ)
    (testSize : ℚ) (h : ¬ (0 < testSize ∧ testSize < 1)) :
    splitData x y testSize = .error .valueError := by
  unfold splitData
  by_cases hy : y.isEmpty
  · rw [if_pos hy]
  · rw [if_neg hy]
    unfold trainTestSplit
    rw [if_pos h]

/-- C3 (witness): the out-of-range fraction 2 makes the split fail with the
generic library error. -/
theorem C3_witness : splitData [[(1 : ℚ)]] [(0 : ℤ)] 2 = .error .valueError :=
  C3_out_of_range_fraction_generic_error [[(1 : ℚ)]] [(0 : ℤ)] 2 (by decide)

/-- C3 (counterexample to the claim as stated): at the concrete out-of-range
fraction 3/2 the split fails with the generic `ValueError`, which is a
different error from the dedicated `InvalidFractionError` the claim
promises. -/
theorem C3_counterexample :
    splitData [[(1 : ℚ)]] [(0 : ℤ)] (3 / 2) = .error .valueError ∧
      SplitError.valueError ≠ SplitError.invalidFraction := by
  constructor
  · exact C3_out_of_range_fraction_generic_error _ _ _ (by norm_num)
  · decide

/-! ## C7 — the stratification guard of split_data -/

/-- C7: for a nonempty target and a feasible fraction (both sides of the
partition nonempty), the split passes a stratification parameter exactly
when the target has more than one distinct class and every class has at
least 2 samples; otherwise it falls back to an unstratified partition
without raising; and the assignment is deterministic for identical inputs
(the fixed seed is embedded as a pure function). -/
theorem C7_stratification_guard (x : List (List ℚ)) (y : List ℤ) (testSize : ℚ)
    (hy : y ≠ []) (ht : 0 < testSize ∧ testSize < 1)
    (hTrain : y.length - nTestOf y.length testSize ≠ 0) :
    ((stratifyParam y).isSome ↔ 1 < nuniqueInt y ∧ 2 ≤ minClassCount y) ∧
    (¬ (1 < nuniqueInt y ∧ 2 ≤ minClassCount y) →
      ∃ r, splitData x y testSize = .ok r ∧ r.stratified = false) ∧
    (∀ r r', splitData x y testSize = .ok r → splitData x y testSize = .ok r' → r = r') := by
  have hTest : nTestOf y.length testSize ≠ 0 := by
    have hyl : 1 ≤ y.length := by
      rcases y with _ | ⟨a, l⟩
      · exact absurd rfl hy
      · simp
    have hpos : (0 : ℚ) < (y.length : ℚ) * testSize := by
      apply mul_pos _ ht.1
      exact_mod_cast hyl
    have := Int.ceil_pos.mpr hpos
    unfold nTestOf
    omega
  refine ⟨?_, ?_, ?_⟩
  · unfold stratifyParam
    by_cases hc : 1 < nuniqueInt y ∧ 2 ≤ minClassCount y
    · rw [if_pos hc]
      simpa using hc
    · rw [if_neg hc]
      simpa using hc
  · intro hnc
    have hstrat : stratifyParam y = none := by
      unfold stratifyParam
      rw [if_neg hnc]
    unfold splitData
    rw [if_neg (by simp [hy])]
    unfold trainTestSplit
    rw [hstrat, if_neg (not_not_intro ht), if_neg (by push_neg; exact ⟨hTest, hTrain⟩)]
    exact ⟨_, rfl, rfl⟩
  · intro r r' h h'
    rw [h] at h'
    injection h'

/-- C7 (witness): on the 3-sample target [0, 0, 1] (class 1 has a single
member) with fraction 1/2, the guard decides against stratification and the
split completes unstratified. -/
theorem C7_witness :
    ((stratifyParam [0, 0, 1]).isSome ↔
      1 < nuniqueInt [0, 0, 1] ∧ 2 ≤ minClassCount [0, 0, 1]) ∧
    (¬ (1 < nuniqueInt [0, 0, 1] ∧ 2 ≤ minClassCount [0, 0, 1]) →
      ∃ r, splitData [[1], [2], [3]] [0, 0, 1] (1 / 2) = .ok r ∧ r.stratified = false) ∧
    (∀ r r', splitData [[1], [2], [3]] [0, 0, 1] (1 / 2) = .ok r →
      splitData [[1], [2], [3]] [0, 0, 1] (1 / 2) = .ok r' → r = r') :=
  C7_stratification_guard [[1], [2], [3]] [0, 0, 1] (1 / 2) (by decide) (by norm_num)
    (by
      have h2 : (⌈(([0, 0, 1] : List ℤ).length : ℚ) * (1 / 2)⌉ : ℤ) = 2 := by
        norm_num [Int.ceil_eq_iff]
      unfold nTestOf
      rw [h2]
      decide)

/-! ## C4 — confusion-matrix shape -/

/-- Helper: summing the indicator of one value over a duplicate-free list
containing it gives 1. -/
theorem sum_indicator_one (c : ℤ) (L : List ℤ) (hN : L.Nodup) (hc : c ∈ L) :
    (L.map (fun b => if c = b then 1 else 0)).sum = 1 := by
  induction L with
  | nil => cases hc
  | cons x xs ih =>
    rcases List.mem_cons.mp hc with h | h
    · subst h
      have hnx : c ∉ xs := (List.nodup_cons.mp hN).1
      have hz : (xs.map (fun b => if c = b then 1 else 0)).sum = 0 := by
        apply List.sum_eq_zero
        intro n hn
        rcases List.mem_map.mp hn with ⟨b, hb, rfl⟩
        rw [if_neg]
        rintro rfl
        exact hnx hb
      simp [hz]
    · have hne : c ≠ x := by
        rintro rfl
        exact (List.nodup_cons.mp hN).1 h
      simp only [List.map_cons, List.sum_cons, if_neg hne, Nat.zero_add]
      exact ih (List.nodup_cons.mp hN).2 h

/-- Helper: a sum of pointwise sums of naturals splits. -/
theorem sum_map_add_nat {α : Type} (f g : α → ℕ) (L : List α) :
    (L.map (fun z => f z + g z)).sum = (L.map f).sum + (L.map g).sum := by
  induction L with
  | nil => rfl
  | cons z zs ih =>
    simp only [List.map_cons, List.sum_cons, ih]
    omega

/-- Helper: summing, over a duplicate-free label list covering every
predicted value, the counts of (true = a, predicted = b) pairs gives the
count of rows with true value a. -/
theorem countP_row_sum (a : ℤ) (l : List (ℤ × ℤ)) (L : List ℤ) (hN : L.Nodup)
    (hmem : ∀ p ∈ l, p.2 ∈ L) :
    (L.map (fun b => l.countP (fun p => decide (p.1 = a ∧ p.2 = b)))).sum
      = l.countP (fun p => decide (p.1 = a)) := by
  induction l with
  | nil => simp
  | cons q l ih =>
    have hq : q.2 ∈ L := hmem q (List.mem_cons_self q l)
    have hm2 : ∀ p ∈ l, p.2 ∈ L := fun p hp => hmem p (List.mem_cons_of_mem q hp)
    simp only [List.countP_cons]
    rw [sum_map_add_nat (fun b => l.countP (fun p => decide (p.1 = a ∧ p.2 = b)))
      (fun b => if decide (q.1 = a ∧ q.2 = b) = true then 1 else 0) L, ih hm2]
    congr 1
    simp only [decide_eq_true_eq]
    by_cases ha : q.1 = a
    · simp only [ha, true_and, if_pos rfl]
      exact sum_indicator_one q.2 L hN hq
    · simp only [ha, false_and, if_false]
      simp

/-- Helper: counting pairs by their first component equals counting in the
first list, when the zipped lists have equal length. -/
theorem countP_fst_zip (a : ℤ) (l1 l2 : List ℤ) (h : l1.length = l2.length) :
    (l1.zip l2).countP (fun p => decide (p.1 = a)) = l1.count a := by
  induction l1 generalizing l2 with
  | nil => simp
  | cons z zs ih =>
    cases l2 with
    | nil => simp at h
    | cons w ws =>
      simp only [List.zip_cons_cons, List.countP_cons, List.count_cons]
      rw [ih ws (by simpa using h)]
      by_cases hz : z = a
      · simp [hz]
      · have hz2 : ¬ (a = z) := fun hh => hz hh.symm
        simp [hz, hz2]

/-- C4 (amended): the reported confusion matrix is square with size equal to
the number of distinct labels occurring among the test set's true OR
predicted values (not the distinct test classes alone), with rows and
columns indexed by those labels in ascending sorted order (not order of
first appearance); each row's sum equals that label's count among the true
test values. -/
theorem C4_confusion_matrix_shape (yTrue yPred : List ℤ)
    (h : yTrue.length = yPred.length) :
    (confusionMatrix yTrue yPred).length = (cmLabels yTrue yPred).length ∧
    (∀ row ∈ confusionMatrix yTrue yPred, row.length = (cmLabels yTrue yPred).length) ∧
    (cmLabels yTrue yPred).Nodup ∧
    List.Sorted (· ≤ ·) (cmLabels yTrue yPred) ∧
    (∀ a ∈ cmLabels yTrue yPred,
      ((cmLabels yTrue yPred).map (fun b => pairCount yTrue yPred a b)).sum
        = yTrue.count a) := by
  have hnd : (cmLabels yTrue yPred).Nodup :=
    ((List.perm_insertionSort _ _).nodup_iff).mpr (List.nodup_dedup _)
  refine ⟨by simp [confusionMatrix], ?_, hnd, List.sorted_insertionSort _ _, ?_⟩
  · intro row hrow
    rcases List.mem_map.mp hrow with ⟨a, -, rfl⟩
    simp
  · intro a ha
    have hmem : ∀ p ∈ yTrue.zip yPred, p.2 ∈ cmLabels yTrue yPred := by
      rintro ⟨u, v⟩ hp
      have h2 := (List.of_mem_zip hp).2
      have h4 : v ∈ (yTrue ++ yPred).dedup :=
        List.mem_dedup.mpr (List.mem_append_right _ h2)
      exact ((List.perm_insertionSort _ _).mem_iff).mpr h4
    unfold pairCount
    rw [countP_row_sum a _ _ hnd hmem, countP_fst_zip a yTrue yPred h]

/-- C4 (witness): the shape facts at the concrete test vectors [0, 1, 1]
(true) and [1, 1, 0] (predicted). -/
theorem C4_witness :
    (confusionMatrix [0, 1, 1] [1, 1, 0]).length = (cmLabels [0, 1, 1] [1, 1, 0]).length ∧
    (∀ row ∈ confusionMatrix [0, 1, 1] [1, 1, 0],
      row.length = (cmLabels [0, 1, 1] [1, 1, 0]).length) ∧
    (cmLabels [0, 1, 1] [1, 1, 0]).Nodup ∧
    List.Sorted (· ≤ ·) (cmLabels [0, 1, 1] [1, 1, 0]) ∧
    (∀ a ∈ cmLabels [0, 1, 1] [1, 1, 0],
      ((cmLabels [0, 1, 1] [1, 1, 0]).map (fun b => pairCount [0, 1, 1] [1, 1, 0] a b)).sum
        = ([0, 1, 1] : List ℤ).count a) :=
  C4_confusion_matrix_shape [0, 1, 1] [1, 1, 0] rfl

/-- C4 (counterexample to the claim as stated): with true test labels
[1, 0, 1] and predicted labels [1, 2, 1] (the model predicts class 2, which
never occurs among the true test labels), the confusion matrix is 3×3 while
the number of distinct test classes is 2. -/
theorem C4_counterexample :
    (confusionMatrix [1, 0, 1] [1, 2, 1]).length ≠ nuniqueInt [1, 0, 1] := by decide

/-! ## C5 — regression metric aliases -/

/-- C5: every regression metrics record reports accuracy = max(0, test R²)
— hence never negative — precision = test R², recall = 1 − test MAE /
(standard deviation of the true test values + 1e-10), f1 = test R², and the
fixed 2×2 all-zero confusion matrix. -/
theorem C5_regression_metric_aliases (sqrtFn : ℚ → ℚ)
    (yTest yTestPred yTrain yTrainPred : List ℚ) :
    (calculateMetricsRegression sqrtFn yTest yTestPred yTrain yTrainPred).accuracy
        = max 0 (r2Q yTest yTestPred) ∧
    0 ≤ (calculateMetricsRegression sqrtFn yTest yTestPred yTrain yTrainPred).accuracy ∧
    (calculateMetricsRegression sqrtFn yTest yTestPred yTrain yTrainPred).precision
        = r2Q yTest yTestPred ∧
    (calculateMetricsRegression sqrtFn yTest yTestPred yTrain yTrainPred).recallVal
        = 1 - maeQ yTest yTestPred / (sqrtFn (popVarQ yTest) + 1 / 10000000000) ∧
    (calculateMetricsRegression sqrtFn yTest yTestPred yTrain yTrainPred).f1
        = r2Q yTest yTestPred ∧
    (calculateMetricsRegression sqrtFn yTest yTestPred yTrain yTrainPred).confusionMat
        = [[0, 0], [0, 0]] :=
  ⟨rfl, le_max_left 0 _, rfl, rfl, rfl, rfl⟩

/-! ## C6 — unknown model type dispatch -/

/-- C6 (amended): for every model-type string outside the set the dispatch
chain recognizes — "logistic", "linear", "decision_tree", "random_forest",
"svm", "knn", "neural_network" (the source accepts "logistic" as an alias of
the linear family, which the claim's list omits) — train_model fails with
the unknown-model-type error and returns the pipeline state unchanged: no
model is constructed, stored or fitted. -/
theorem C6_unknown_model_type_rejected (st : PState) (modelType : String)
    (hp : Hyperparameters)
    (h1 : modelType ≠ "logistic") (h2 : modelType ≠ "linear")
    (h3 : modelType ≠ "decision_tree") (h4 : modelType ≠ "random_forest")
    (h5 : modelType ≠ "svm") (h6 : modelType ≠ "knn")
    (h7 : modelType ≠ "neural_network") :
    trainModel st modelType hp = (st, .error (.unknownModelType modelType)) := by
  unfold trainModel buildModel
  rw [if_neg (fun hc => hc.elim h1 h2), if_neg h3, if_neg h4, if_neg h5, if_neg h6,
    if_neg h7]

/-- C6 (witness): the unrecognized string "gradient_boosting" fails with the
unknown-model-type error and leaves the state untouched. -/
theorem C6_witness :
    trainModel examplePState "gradient_boosting" {} =
      (examplePState, .error (.unknownModelType "gradient_boosting")) :=
  C6_unknown_model_type_rejected examplePState "gradient_boosting" {} (by decide) (by decide)
    (by decide) (by decide) (by decide) (by decide) (by decide)

/-- C6 (counterexample to the claim as stated): "logistic" is not in the
claim's recognized set, yet train_model does not fail with the
unknown-model-type error on it — the dispatch accepts it as the linear
family's classifier. -/
theorem C6_counterexample :
    (trainModel examplePState "logistic" {}).2
        ≠ .error (.unknownModelType "logistic") ∧
      "logistic" ∉ (["linear", "decision_tree", "random_forest", "svm", "knn",
        "neural_network"] : List String) := by
  constructor
  · intro hcon
    have hok : (trainModel examplePState "logistic" {}).2
        = .ok (.logisticRegression 1000 42) := rfl
    rw [hok] at hcon
    exact Except.noConfusion hcon
  · decide

/-! ## Preservation lemmas for preprocessing -/

/-- Helper: a list built of `some` cells has no missing entry. -/
theorem any_isNone_map_some {α β : Type} (l : List α) (f : α → β) :
    ((l.map (fun v => some (f v))).any (·.isNone)) = false := by
  induction l with
  | nil => rfl
  | cons v vs ih => simpa using ih

/-- Helper: mapping a function over the present cells neither adds nor
removes missing entries. -/
theorem any_isNone_map_optionMap {α β : Type} (vs : List (Option α)) (f : α → β) :
    ((vs.map (fun o => o.map f)).any (·.isNone)) = vs.any (·.isNone) := by
  induction vs with
  | nil => rfl
  | cons v vs ih => cases v <;> simp [ih]

/-- A successful imputation leaves no missing cell. -/
theorem imputeCol_ok_noMissing (strat : Strategy) (c c' : Column)
    (h : c.imputeCol strat = .ok c') : c'.hasMissing = false := by
  cases c with
  | num vs =>
    by_cases he : (vs.filterMap id).isEmpty
    · simp [Column.imputeCol, he] at h
    · simp [Column.imputeCol, he] at h
      rw [← h]
      simpa [Column.hasMissing] using
        any_isNone_map_some vs (fun o => o.getD (imputeValueQ strat (vs.filterMap id)))
  | str vs =>
    by_cases he : (vs.filterMap id).isEmpty
    · simp [Column.imputeCol, he] at h
    · simp [Column.imputeCol, he] at h
      rw [← h]
      simpa [Column.hasMissing] using
        any_isNone_map_some vs (fun o => o.getD (mostFrequentStr (vs.filterMap id)))

/-- A successful run of the per-column missing-value body leaves no missing
cell. -/
theorem handleMissingCol_ok_noMissing (strat : Strategy) (c c' : Column)
    (h : handleMissingCol strat c = .ok c') : c'.hasMissing = false := by
  unfold handleMissingCol at h
  by_cases hm : c.hasMissing
  · rw [if_pos hm] at h
    exact imputeCol_ok_noMissing strat c c' h
  · rw [if_neg hm] at h
    injection h with h2
    rw [← h2]
    simpa using hm

/-- Every column of a successful effectful map comes from a successful
application of the per-column function. -/
theorem mapColsE_ok_mem (f : Column → Except PreprocessError Column)
    (l l' : List (String × Column)) (h : mapColsE f l = .ok l') :
    ∀ nc' ∈ l', ∃ nc ∈ l, f nc.2 = .ok nc'.2 := by
  induction l generalizing l' with
  | nil =>
    simp only [mapColsE, Except.ok.injEq] at h
    subst h
    intro nc' h'
    simp at h'
  | cons nc l ih =>
    unfold mapColsE at h
    cases hfc : f nc.2 with
    | error e =>
      rw [hfc] at h
      simp at h
    | ok c =>
      rw [hfc] at h
      cases hrec : mapColsE f l with
      | error e =>
        rw [hrec] at h
        simp at h
      | ok l2 =>
        rw [hrec] at h
        simp only [Except.ok.injEq] at h
        subst h
        intro nc' h'
        rcases List.mem_cons.mp h' with rfl | hm
        · exact ⟨nc, List.mem_cons_self nc l, hfc⟩
        · rcases ih l2 hrec nc' hm with ⟨nc0, hnc0, hf0⟩
          exact ⟨nc0, List.mem_cons_of_mem nc hnc0, hf0⟩

/-- The encoding step never introduces a missing cell. -/
theorem encodeStep_noMissing (config : Config) (cols : List (String × Column))
    (hall : ∀ nc ∈ cols, nc.2.hasMissing = false) :
    ∀ nc' ∈ (encodeStep config cols).1, nc'.2.hasMissing = false := by
  intro nc' h'
  unfold encodeStep at h'
  by_cases henc : config.encodeCategories
  · rw [if_pos henc] at h'
    simp only [List.mem_map] at h'
    rcases h' with ⟨nc, hnc, rfl⟩
    cases hc2 : nc.2 with
    | num vs =>
      simp only [hc2]
      rw [← hc2]
      exact hall nc hnc
    | str vs =>
      simp only [hc2]
      simp [labelEncode, Column.hasMissing, any_isNone_map_some]
  · rw [if_neg henc] at h'
    exact hall nc' h'

/-- A successful standardization leaves no missing cell (it refuses NaN
input and maps present cells to present cells). -/
theorem standardizeCol_ok_noMissing (sqrtFn : ℚ → ℚ) (c c' : Column)
    (h : standardizeCol sqrtFn c = .ok c') : c'.hasMissing = false := by
  cases c with
  | str vs => simp [standardizeCol] at h
  | num vs =>
    by_cases hm : vs.any (·.isNone)
    · simp [standardizeCol, hm] at h
    · simp [standardizeCol, hm] at h
      rw [← h]
      simp only [Column.hasMissing]
      rw [any_isNone_map_optionMap]
      exact Bool.eq_false_iff.mpr hm

/-- A successful min-max rescale leaves no missing cell. -/
theorem minmaxCol_ok_noMissing (c c' : Column)
    (h : minmaxCol c = .ok c') : c'.hasMissing = false := by
  cases c with
  | str vs => simp [minmaxCol] at h
  | num vs =>
    by_cases hm : vs.any (·.isNone)
    · simp [minmaxCol, hm] at h
    · simp [minmaxCol, hm] at h
      rw [← h]
      simp only [Column.hasMissing]
      rw [any_isNone_map_optionMap]
      exact Bool.eq_false_iff.mpr hm

/-- A successful scaling step preserves missing-freeness. -/
theorem scaleStep_ok_noMissing (sqrtFn : ℚ → ℚ) (config : Config) (oldTag : ScalerTag)
    (cols : List (String × Column)) (r : List (String × Column) × ScalerTag)
    (h : scaleStep sqrtFn config oldTag cols = .ok r)
    (hall : ∀ nc ∈ cols, nc.2.hasMissing = false) :
    ∀ nc' ∈ r.1, nc'.2.hasMissing = false := by
  unfold scaleStep at h
  by_cases hstd : config.standardization
  · rw [if_pos hstd] at h
    cases hmc : mapColsE (standardizeCol sqrtFn) cols with
    | error e =>
      rw [hmc] at h
      simp [Except.map] at h
    | ok cs =>
      rw [hmc] at h
      simp only [Except.map, Except.ok.injEq] at h
      intro nc' h'
      have h1 : nc' ∈ cs := by
        rw [← h] at h'
        exact h'
      rcases mapColsE_ok_mem _ _ _ hmc nc' h1 with ⟨nc, hnc, hf⟩
      exact standardizeCol_ok_noMissing sqrtFn nc.2 nc'.2 hf
  · rw [if_neg hstd] at h
    by_cases hnorm : config.normalization
    · rw [if_pos hnorm] at h
      cases hmc : mapColsE minmaxCol cols with
      | error e =>
        rw [hmc] at h
        simp [Except.map] at h
      | ok cs =>
        rw [hmc] at h
        simp only [Except.map, Except.ok.injEq] at h
        intro nc' h'
        have h1 : nc' ∈ cs := by
          rw [← h] at h'
          exact h'
        rcases mapColsE_ok_mem _ _ _ hmc nc' h1 with ⟨nc, hnc, hf⟩
        exact minmaxCol_ok_noMissing nc.2 nc'.2 hf
    · rw [if_neg hnorm] at h
      injection h with h2
      rw [← h2]
      exact hall

/-- Destructuring a successful preprocessing run into its stages. -/
theorem preprocessData_ok_destruct (sqrtFn : ℚ → ℚ) (df : DataFrame)
    (inputFeatures : List String) (targetVariable : String) (config : Config)
    (st st' : PState) (x : List (String × Column)) (y : Column)
    (h : preprocessData sqrtFn df inputFeatures targetVariable config st
      = .ok (st', x, y)) :
    ∃ xcols ycol xcols1 r,
      getCols df inputFeatures = some xcols ∧
      df.getCol targetVariable = some ycol ∧
      handleMissingStep config xcols = .ok xcols1 ∧
      scaleStep sqrtFn config st.scalerTag (encodeStep config xcols1).1 = .ok r ∧
      st' = { st with
              featureNames := inputFeatures,
              targetName := some targetVariable,
              labelEncoders := st.labelEncoders ++ (encodeStep config xcols1).2
                ++ (encodeTarget targetVariable ycol).2,
              scalerTag := r.2 } ∧
      x = r.1 ∧ y = (encodeTarget targetVariable ycol).1 := by
  unfold preprocessData at h
  split at h
  · simp at h
  · rename_i xcols hg
    split at h
    · simp at h
    · rename_i ycol hy
      split at h
      · simp at h
      · rename_i xcols1 hms
        split at h
        · simp at h
        · rename_i r hsc
          simp only [Except.ok.injEq, Prod.mk.injEq] at h
          exact ⟨xcols, ycol, xcols1, r, hg, hy, hms, hsc, h.1.symm, h.2.1.symm, h.2.2.symm⟩

/-! ## C8 — imputation removes every missing value -/

/-- C8: whenever preprocessing runs with handle_missing enabled and returns
a feature matrix, that matrix contains no missing value: every feature
column that had missing entries was imputed (numeric columns by the
configured strategy, object columns by most-frequent), and the later
encoding and scaling steps preserve missing-freeness. -/
theorem C8_handle_missing_removes_all (sqrtFn : ℚ → ℚ) (df : DataFrame)
    (inputFeatures : List String) (targetVariable : String) (config : Config)
    (st st' : PState) (x : List (String × Column)) (y : Column)
    (hcfg : config.handleMissing = true)
    (h : preprocessData sqrtFn df inputFeatures targetVariable config st
      = .ok (st', x, y)) :
    ∀ nc ∈ x, nc.2.hasMissing = false := by
  rcases preprocessData_ok_destruct sqrtFn df inputFeatures targetVariable config st st' x y h
    with ⟨xcols, ycol, xcols1, r, -, -, hms, hsc, -, hx, -⟩
  have hall1 : ∀ nc ∈ xcols1, nc.2.hasMissing = false := by
    unfold handleMissingStep at hms
    rw [if_pos hcfg] at hms
    intro nc hnc
    rcases mapColsE_ok_mem _ _ _ hms nc hnc with ⟨nc0, -, hf⟩
    exact handleMissingCol_ok_noMissing _ _ _ hf
  have hall2 := encodeStep_noMissing config xcols1 hall1
  intro nc hnc
  exact scaleStep_ok_noMissing sqrtFn config st.scalerTag _ r hsc hall2 nc (hx ▸ hnc)

/-! ## C9 — the target is always label encoded when non-numeric -/

/-- C9: whenever the selected target column is non-numeric (object dtype),
a successful preprocessing run returns the label-encoded integer codes of
the target and stores the fitted category list under the target's name,
for every configuration — flipping encode_categories changes nothing about
the target. -/
theorem C9_target_always_encoded (sqrtFn : ℚ → ℚ) (df : DataFrame)
    (inputFeatures : List String) (targetVariable : String) (config : Config)
    (st st' : PState) (x : List (String × Column)) (y : Column)
    (vs : List (Option String))
    (hcol : df.getCol targetVariable = some (Column.str vs))
    (h : preprocessData sqrtFn df inputFeatures targetVariable config st
      = .ok (st', x, y)) :
    y = Column.num (labelEncode vs).2 ∧
    (targetVariable, (labelEncode vs).1) ∈ st'.labelEncoders ∧
    (∀ b st2 x2 y2,
      preprocessData sqrtFn df inputFeatures targetVariable
          { config with encodeCategories := b } st = .ok (st2, x2, y2) →
        y2 = Column.num (labelEncode vs).2) := by
  have main : ∀ (cfg : Config) (stA : PState) (xA : List (String × Column)) (yA : Column),
      preprocessData sqrtFn df inputFeatures targetVariable cfg st = .ok (stA, xA, yA) →
      yA = Column.num (labelEncode vs).2 ∧
        (targetVariable, (labelEncode vs).1) ∈ stA.labelEncoders := by
    intro cfg stA xA yA hA
    rcases preprocessData_ok_destruct sqrtFn df inputFeatures targetVariable cfg st stA xA yA hA
      with ⟨xcols, ycol, xcols1, r, -, hyc, -, -, hst, -, hyA⟩
    have hy2 : ycol = Column.str vs := by
      rw [hcol] at hyc
      exact (Option.some.inj hyc).symm
    subst hy2
    constructor
    · rw [hyA]
      simp [encodeTarget]
    · rw [hst]
      simp [encodeTarget]
  rcases main config st' x y h with ⟨h1, h2⟩
  exact ⟨h1, h2, fun b st2 x2 y2 h3 => (main _ st2 x2 y2 h3).1⟩

/-! ## C10 — preprocessing and training leave the stored dataset unchanged -/

/-- C10: preprocessing operates on copies — a successful run changes only
the fitted fields of the pipeline state, never the stored original
dataframe, and a training call (which touches only the model slot) likewise
preserves it, so the session can retrain repeatedly from the same data. -/
theorem C10_original_dataframe_preserved (sqrtFn : ℚ → ℚ) (df : DataFrame)
    (inputFeatures : List String) (targetVariable : String) (config : Config)
    (st st' : PState) (x : List (String × Column)) (y : Column)
    (modelType : String) (hp : Hyperparameters)
    (h : preprocessData sqrtFn df inputFeatures targetVariable config st
      = .ok (st', x, y)) :
    st'.originalDf = st.originalDf ∧
    (trainModel st modelType hp).1.originalDf = st.originalDf := by
  constructor
  · rcases preprocessData_ok_destruct sqrtFn df inputFeatures targetVariable config st st' x y h
      with ⟨xcols, ycol, xcols1, r, -, -, -, -, hst, -, -⟩
    rw [hst]
  · unfold trainModel
    cases buildModel modelType (isClassificationOf st) hp <;> rfl

/-- C8 (witness): a concrete preprocessing run with handle_missing enabled
returns the feature column "x" with no missing cell. -/
theorem C8_witness :
    (("x", Column.num [some 1, some 2, some 3]) : String × Column).2.hasMissing = false :=
  C8_handle_missing_removes_all id dfStrTarget ["x"] "t" { handleMissing := true }
    examplePState
    exampleFittedState
    [("x", Column.num [some 1, some 2, some 3])]
    (Column.num [some 1, some 0, some 1])
    rfl (by decide) ("x", Column.num [some 1, some 2, some 3]) (by decide)

/-- C9 (witness): on a concrete run whose target column holds the strings
b, a, b, preprocessing returns the integer codes 1, 0, 1 and stores the
fitted classes [a, b] under the target's name. -/
theorem C9_witness :
    Column.num [some 1, some 0, some 1]
        = Column.num (labelEncode [some "b", some "a", some "b"]).2 ∧
    ("t", (labelEncode [some "b", some "a", some "b"]).1) ∈
      exampleFittedState.labelEncoders := by
  have h := C9_target_always_encoded id dfStrTarget ["x"] "t" { handleMissing := true }
    examplePState
    exampleFittedState
    [("x", Column.num [some 1, some 2, some 3])]
    (Column.num [some 1, some 0, some 1])
    [some "b", some "a", some "b"]
    (by decide) (by decide)
  exact ⟨h.1, h.2.1⟩

/-- C10 (witness): the concrete preprocessing run and a training call both
leave the stored original dataframe untouched. -/
theorem C10_witness :
    exampleFittedState.originalDf = examplePState.originalDf ∧
    (trainModel examplePState "linear" {}).1.originalDf = examplePState.originalDf :=
  C10_original_dataframe_preserved id dfStrTarget ["x"] "t" { handleMissing := true }
    examplePState
    exampleFittedState
    [("x", Column.num [some 1, some 2, some 3])]
    (Column.num [some 1, some 0, some 1])
    "linear" {} (by decide)

end NeuroBlock
